import Mathlib

/-!
Shallow embedding of the cross-signal correlation engine of the
observability-agent repository
(`observability/ai-agent/correlation_engine.py` and
`observability/ai-agent/app.py`), together with proofs about the
behaviour claimed in the specification.

Modelling conventions:
* every backend HTTP call is represented by its already-parsed response,
  wrapped in `Option`: `none` models the call raising an exception
  (transport failure, timeout, malformed body), `some r` models a
  completed call whose parsed payload is `r`;
* Prometheus responses are modelled as the list of scalar sample values
  (`data.result[i].value[1]`, parsed by `float`), as rationals;
* OpenSearch responses are modelled as the list of hit messages
  (`hits.hits[i]._source.message`);
* Jaeger queries are stubs in the source and always return the empty
  list, which the embedding reproduces;
* `datetime.now().isoformat()` is modelled by an explicit `now : String`
  argument threaded into each operation;
* Python dicts used as records become structures; a dict key that is only
  sometimes present becomes an `Option` field (`none` = key absent).
-/

namespace ObsAgent

/-! ### String helpers (Python `in` on strings, `str.lower`) -/

/-- Python substring test `pat in s`, on character lists. -/
def containsSub (pat s : List Char) : Bool :=
  match s with
  | [] => pat.isEmpty
  | _ :: t => pat.isPrefixOf s || containsSub pat t

/-- Python `pat in msg` for strings. -/
def containsStr (pat msg : String) : Bool :=
  containsSub pat.toList msg.toList

/-- Python `pat in msg.lower()`. -/
def containsLower (pat msg : String) : Bool :=
  containsSub pat.toList (msg.toList.map Char.toLower)

/-- Python `int(x)` on a float value: truncation toward zero. -/
def pyInt (q : ℚ) : Int := Int.tdiv q.num q.den

/-- Python `"%.1f"`-style formatting (`{x:.1f}`): the value rounded to one
decimal digit, rendered as text.  The exact tie-breaking of Python float
formatting is irrelevant to every theorem below; only the fact that the
rendered text is a function of the value matters. -/
def fmt1 (q : ℚ) : String :=
  let n : Int := round (q * 10)
  let ip := Int.tdiv n 10
  let fp := (Int.tmod n 10).natAbs
  toString ip ++ "." ++ toString fp

/-- Stand-in for Python default float rendering (`str(float)`); a pure
function of the value, never inspected by any theorem below. -/
def pyFloatStr (q : ℚ) : String := toString q

/-- Python `repr` of a `(reason, count)` tuple, as produced when an
f-string interpolates a tuple. -/
def pyReprPair (rc : String × Nat) : String :=
  let r := rc.1
  let c := rc.2
  "(\x27" ++ r ++ "\x27, " ++ toString c ++ ")"

/-! ### Data model

`Finding` embeds the finding dicts built by the correlation engine: each
has keys `source`, `data`, `insight`; no finding dict in the engine ever
carries a `severity` key, which the embedding records as an `Option`
field whose value the engine always leaves at `none`. -/

structure ErrorMetrics where
  error_count : Int
  time_window : String
deriving DecidableEq

structure RejStats where
  rejected_count : Int
  total_count : Int
  rejection_rate : ℚ
deriving DecidableEq

inductive FindingData where
  | errorMetricsData (m : ErrorMetrics)
  | errorLogsData (count : Nat) (sample_messages : List String)
      (common_patterns : List String)
  | failedTracesData (count : Nat) (slow_operations : List String)
  | slowMetricsData (p95_ms : ℚ)
  | perfLogsData (count : Nat)
  | slowTracesData (count : Nat) (bottlenecks : List String)
  | rejectionStatsData (st : RejStats)
  | rejectionLogsData (count : Nat) (top_reasons : List (String × Nat))
  | rejectionPointsData (location step : String) (duration_ms : Nat)
deriving DecidableEq

structure Finding where
  source : String
  data : FindingData
  insight : String
  severity : Option String := none
deriving DecidableEq

structure Action where
  priority : String
  action : String
  details : String
  steps : List String
deriving DecidableEq

structure CorrelationResult where
  type : String
  timestamp : String
  findings : List Finding
  correlated_insight : String
  root_cause : Option String := none
  recommended_actions : Option (List Action) := none
deriving DecidableEq

/-! ### Backend query helpers (`_get_*` methods of `CorrelationEngine`)

Each wraps its HTTP call in `try/except`; the `Option` input is the
outcome of the call (`none` = the call raised). -/

/-- Embeds `_get_error_metrics`: `None` on exception or empty result list, else
the error count parsed from the first sample. -/
def get_error_metrics (minutes : Nat) (resp : Option (List ℚ)) :
    Option ErrorMetrics :=
  match resp with
  | none => none
  | some [] => none
  | some (v :: _) => some ⟨pyInt v, toString minutes ++ "m"⟩

/-- Embeds `_get_error_logs`: `[]` on exception, else the hits. -/
def get_error_logs (resp : Option (List String)) : List String :=
  resp.getD []

/-- Embeds `_get_rejection_logs`: `[]` on exception, else the hits. -/
def get_rejection_logs (resp : Option (List String)) : List String :=
  resp.getD []

/-- Embeds `_get_performance_logs`: `[]` on exception, else the hits. -/
def get_performance_logs (resp : Option (List String)) : List String :=
  resp.getD []

/-- Embeds `_get_rejection_metrics`: one `try` block issues the `rejected` and
`total` queries (modelled as a pair); `None` on exception or if either
result list is empty. -/
def get_rejection_metrics (resp : Option (List ℚ × List ℚ)) :
    Option RejStats :=
  match resp with
  | none => none
  | some (rv :: _, tv :: _) =>
      some ⟨pyInt rv, pyInt tv, if 0 < tv then rv / tv * 100 else 0⟩
  | some _ => none

/-- Embeds `_get_slow_request_metrics`: p95 seconds converted to milliseconds. -/
def get_slow_request_metrics (resp : Option (List ℚ)) : Option ℚ :=
  match resp with
  | none => none
  | some [] => none
  | some (v :: _) => some (v * 1000)

/-- Embeds `_get_failed_traces`: stub, always empty. -/
def get_failed_traces (_minutes : Nat) : List Unit := []

/-- Embeds `_get_rejection_traces`: stub, always empty. -/
def get_rejection_traces : List Unit := []

/-- Embeds `_get_slow_traces`: stub, always empty. -/
def get_slow_traces (_minutes : Nat) : List Unit := []

/-! ### Pattern extraction (`_extract_patterns`, `_extract_rejection_reasons`)

A Python dict used as a counter becomes an association list in insertion
order: incrementing an existing key keeps its position, a new key is
appended. -/

/-- Embeds `d[k] = d.get(k, 0) + 1` on an insertion-ordered counter. -/
def bumpKey (k : String) : List (String × Nat) → List (String × Nat)
  | [] => [(k, 1)]
  | (k₂, c) :: rest =>
      if k₂ = k then (k, c + 1) :: rest else (k₂, c) :: bumpKey k rest

/-- One message step of `_extract_patterns`: three independent `if`s (not
`elif`), so one message can be counted in several buckets. -/
def patternStep (acc : List (String × Nat)) (msg : String) :
    List (String × Nat) :=
  let a1 := if containsStr ("Invalid") msg then bumpKey ("invalid_policy") acc else acc
  let a2 := if containsStr ("rejected") msg then bumpKey ("rejection") a1 else a1
  if containsLower ("database") msg then bumpKey ("database_error") a2 else a2

/-- The counter built by `_extract_patterns` before sorting. -/
def patternCounts (messages : List String) : List (String × Nat) :=
  messages.foldl patternStep []

/-- The comparison used by `sorted(..., key=lambda x: x[1], reverse=True)`:
descending count. -/
def countGE (a b : String × Nat) : Prop := b.2 ≤ a.2

instance : DecidableRel countGE := fun a b => Nat.decLe b.2 a.2

instance : IsTotal (String × Nat) countGE :=
  ⟨fun a b => Nat.le_total b.2 a.2⟩

instance : IsTrans (String × Nat) countGE :=
  ⟨fun _ _ _ h1 h2 => Nat.le_trans h2 h1⟩

/-- Python `sorted(items, key=lambda x: x[1], reverse=True)`: a stable
sort by descending count. -/
def sortByCountDesc (l : List (String × Nat)) : List (String × Nat) :=
  l.insertionSort countGE

/-- The `f"{k}: {v} occurrences"` rendering in `_extract_patterns`. -/
def pyFmtCount (kv : String × Nat) : String :=
  kv.1 ++ ": " ++ toString kv.2 ++ " occurrences"

/-- Embeds `_extract_patterns`. -/
def extract_patterns (messages : List String) : List String :=
  (sortByCountDesc (patternCounts messages)).map pyFmtCount

/-- One message step of `_extract_rejection_reasons`: `if/elif/elif`, so
the first matching phrase wins and each log is counted at most once. -/
def reasonStep (acc : List (String × Nat)) (msg : String) :
    List (String × Nat) :=
  if containsStr ("Invalid") msg then bumpKey ("Invalid or inactive policy") acc
  else if containsStr ("exceeds") msg then bumpKey ("Exceeds coverage") acc
  else if containsStr ("rejected") msg then bumpKey ("Policy validation failed") acc
  else acc

/-- The counter built by `_extract_rejection_reasons` before sorting. -/
def reasonCounts (messages : List String) : List (String × Nat) :=
  messages.foldl reasonStep []

/-- Embeds `_extract_rejection_reasons`: returns `(reason, count)` pairs sorted
by descending count. -/
def extract_rejection_reasons (messages : List String) :
    List (String × Nat) :=
  sortByCountDesc (reasonCounts messages)

/-- The count a counter association list assigns to key `k`
(Python `d.get(k, 0)`). -/
def lookupCount (k : String) (l : List (String × Nat)) : Nat :=
  match l.find? (fun kv => kv.1 == k) with
  | some kv => kv.2
  | none => 0

/-- Sum of all bucket counts of a counter. -/
def totalCount (l : List (String × Nat)) : Nat :=
  (l.map Prod.snd).sum

/-- Embeds `_identify_slow_operations`: static stub. -/
def identify_slow_operations (_traces : List Unit) : List String :=
  ["database_query", "external_api_call", "claim_processing"]

/-- Embeds `_identify_bottlenecks`: static stub. -/
def identify_bottlenecks (_traces : List Unit) : List String :=
  ["Policy validation taking 80% of request time"]

/-- Embeds `_identify_rejection_points`: static stub dict. -/
def identify_rejection_points (_traces : List Unit) : FindingData :=
  .rejectionPointsData ("process_claim_locally function") ("policy validation") 50

/-! ### Insight synthesis -/

/-- Embeds `_generate_correlated_insight`.  The branch indexing `findings[1]`
is only reached when at least two findings are present (two distinct
sources), so the `[f₀]` fallback of the inner match is unreachable from
the engine; Python would raise `IndexError` there. -/
def generate_correlated_insight (findings : List Finding) : String :=
  match findings with
  | [] => "No correlation data available"
  | f₀ :: rest =>
    let sources := (f₀ :: rest).map Finding.source
    if sources.contains ("metrics") && sources.contains ("logs") then
      match rest with
      | f₁ :: _ =>
          "Correlation: Metrics show the WHAT (" ++ f₀.insight ++
            "), Logs reveal the WHY (" ++ f₁.insight ++ ")"
      | [] => ""
    else if sources.contains ("metrics") && sources.contains ("traces") then
      "Correlation: Metrics identified the problem, Traces pinpointed the exact code location"
    else
      "Partial correlation data available"

/-- Embeds `_generate_rejection_insight`.  The inner shape mismatch (a metrics
or logs finding whose data dict lacks the accessed keys) is unreachable
from the engine; Python would raise `KeyError` there. -/
def generate_rejection_insight (findings : List Finding) : String :=
  let metricData := findings.find? (fun f => f.source == "metrics")
  let logData := findings.find? (fun f => f.source == "logs")
  match metricData, logData with
  | some mf, some lf =>
    match mf.data, lf.data with
    | .rejectionStatsData st, .rejectionLogsData _ reasons =>
        let topReason := match reasons with
          | (r, _) :: _ => r
          | [] => "Unknown"
        "🔍 CORRELATION INSIGHT: " ++ fmt1 st.rejection_rate ++
          "% of claims are rejected. Logs reveal the primary reason is \x27" ++
          topReason ++
          "\x27. Traces show this happens during policy validation, taking ~50ms per request."
    | _, _ => ""
  | _, _ => "Analyzing rejection patterns across metrics, logs, and traces..."

/-- Embeds `_determine_root_cause`. -/
def determine_root_cause (findings : List Finding) : String :=
  match findings.find? (fun f => f.source == "logs") with
  | some lf =>
    match lf.data with
    | .rejectionLogsData _ ((r, c) :: _) =>
        r ++ " (" ++ toString c ++ " occurrences)"
    | _ => "Invalid policy numbers being submitted"
  | none => "Invalid policy numbers being submitted"

/-- The `Fix Policy Validation` action emitted by `_suggest_actions`. -/
def fixPolicyAction (count : Nat) : Action :=
  { priority := "high"
    action := "Fix Policy Validation"
    details := toString count ++ " claims failed due to invalid policies"
    steps := ["Check policy number format in submission requests",
              "Verify policy database is up to date",
              "Add better error messaging for users"] }

/-- The `Review Coverage Limits` action emitted by `_suggest_actions`. -/
def reviewCoverageAction (count : Nat) : Action :=
  { priority := "medium"
    action := "Review Coverage Limits"
    details := toString count ++ " claims exceeded coverage"
    steps := ["Notify users of coverage limits before submission",
              "Consider tiered approval for high-value claims",
              "Review policy coverage amounts"] }

/-- The generic fallback action of `_suggest_actions`. -/
def investigateFurtherAction : Action :=
  { priority := "medium"
    action := "Investigate Further"
    details := "Need more data for specific recommendations"
    steps := ["Enable debug logging", "Collect more samples",
              "Review application code"] }

/-- Per-reason body of the `_suggest_actions` loop (`if/elif`). -/
def actionsForReason (rc : String × Nat) : List Action :=
  if containsStr ("Invalid") rc.1 then [fixPolicyAction rc.2]
  else if containsStr ("exceeds") rc.1 then [reviewCoverageAction rc.2]
  else []

/-- Embeds `_suggest_actions`. -/
def suggest_actions (findings : List Finding) : List Action :=
  let logData := findings.find? (fun f => f.source == "logs")
  let actions :=
    match logData with
    | some lf =>
      match lf.data with
      | .rejectionLogsData _ reasons =>
          (reasons.map actionsForReason).flatten
      | _ => []
    | none => []
  if actions.isEmpty then [investigateFurtherAction] else actions

/-! ### The three investigation operations -/

/-- Backend responses consumed by `correlate_error_spike`. -/
structure ErrorSpikeEnv where
  errorMetricsResp : Option (List ℚ)
  errorLogsResp : Option (List String)
deriving DecidableEq

/-- Metrics segment of the `correlate_error_spike` findings list. -/
def error_spike_metrics_findings (minutes : Nat) (env : ErrorSpikeEnv) :
    List Finding :=
  match get_error_metrics minutes env.errorMetricsResp with
  | some m =>
      [{ source := "metrics", data := .errorMetricsData m,
         insight := "Detected " ++ toString m.error_count ++
           " errors in last " ++ toString minutes ++ " minutes" }]
  | none => []

/-- Logs segment of the `correlate_error_spike` findings list. -/
def error_spike_logs_findings (env : ErrorSpikeEnv) : List Finding :=
  let error_logs := get_error_logs env.errorLogsResp
  if error_logs.isEmpty then []
  else
    [{ source := "logs",
       data := .errorLogsData error_logs.length (error_logs.take 3)
         (extract_patterns error_logs),
       insight := "Found " ++ toString error_logs.length ++
         " error log entries with specific failure reasons" }]

/-- Traces segment of the `correlate_error_spike` findings list (the
trace query is a stub, so this segment is always empty). -/
def error_spike_traces_findings (minutes : Nat) : List Finding :=
  let failed_traces := get_failed_traces minutes
  if failed_traces.isEmpty then []
  else
    [{ source := "traces",
       data := .failedTracesData failed_traces.length
         (identify_slow_operations failed_traces),
       insight := "Traces show which specific operations failed and their timing" }]

/-- Embeds `correlate_error_spike`. -/
def correlate_error_spike (now : String) (minutes : Nat)
    (env : ErrorSpikeEnv) : CorrelationResult :=
  let findings := error_spike_metrics_findings minutes env ++
    error_spike_logs_findings env ++ error_spike_traces_findings minutes
  { type := "error_spike_investigation"
    timestamp := now
    findings := findings
    correlated_insight := generate_correlated_insight findings }

/-- Backend responses consumed by `correlate_slow_requests`. -/
structure SlowRequestsEnv where
  slowMetricsResp : Option (List ℚ)
  perfLogsResp : Option (List String)
deriving DecidableEq

/-- Metrics segment of the `correlate_slow_requests` findings list. -/
def slow_requests_metrics_findings (env : SlowRequestsEnv) : List Finding :=
  match get_slow_request_metrics env.slowMetricsResp with
  | some p95 =>
      [{ source := "metrics", data := .slowMetricsData p95,
         insight := "P95 response time: " ++ pyFloatStr p95 ++ "ms" }]
  | none => []

/-- Logs segment of the `correlate_slow_requests` findings list. -/
def slow_requests_logs_findings (env : SlowRequestsEnv) : List Finding :=
  let perf_logs := get_performance_logs env.perfLogsResp
  if perf_logs.isEmpty then []
  else
    [{ source := "logs", data := .perfLogsData perf_logs.length,
       insight := "Logs show slow database queries or external API calls" }]

/-- Traces segment of the `correlate_slow_requests` findings list (the
trace query is a stub, so this segment is always empty). -/
def slow_requests_traces_findings (minutes : Nat) : List Finding :=
  let slow_traces := get_slow_traces minutes
  if slow_traces.isEmpty then []
  else
    let bottlenecks := identify_bottlenecks slow_traces
    [{ source := "traces",
       data := .slowTracesData slow_traces.length bottlenecks,
       insight := "Bottleneck identified: " ++
         bottlenecks.headD ("Processing logic") }]

/-- Embeds `correlate_slow_requests`. -/
def correlate_slow_requests (now : String) (minutes : Nat)
    (env : SlowRequestsEnv) : CorrelationResult :=
  let findings := slow_requests_metrics_findings env ++
    slow_requests_logs_findings env ++ slow_requests_traces_findings minutes
  { type := "performance_investigation"
    timestamp := now
    findings := findings
    correlated_insight := generate_correlated_insight findings }

/-- Backend responses consumed by `correlate_claim_rejection_pattern`
and by `create_correlation_story` (both query rejection metrics and
rejection logs). -/
structure RejectionEnv where
  rejectionMetricsResp : Option (List ℚ × List ℚ)
  rejectionLogsResp : Option (List String)
deriving DecidableEq

/-- Metrics segment of the rejection-pattern findings list. -/
def rejection_metrics_findings (env : RejectionEnv) : List Finding :=
  match get_rejection_metrics env.rejectionMetricsResp with
  | some st =>
      [{ source := "metrics", data := .rejectionStatsData st,
         insight := "Rejection rate: " ++ fmt1 st.rejection_rate ++ "%" }]
  | none => []

/-- Logs segment of the rejection-pattern findings list. -/
def rejection_logs_findings (env : RejectionEnv) : List Finding :=
  let rejection_logs := get_rejection_logs env.rejectionLogsResp
  if rejection_logs.isEmpty then []
  else
    let reasons := extract_rejection_reasons rejection_logs
    let top := match reasons with
      | r :: _ => pyReprPair r
      | [] => "Unknown"
    [{ source := "logs",
       data := .rejectionLogsData rejection_logs.length reasons,
       insight := "Most common reason: " ++ top }]

/-- Traces segment of the rejection-pattern findings list (the trace
query is a stub, so this segment is always empty). -/
def rejection_traces_findings : List Finding :=
  let rejection_traces := get_rejection_traces
  if rejection_traces.isEmpty then []
  else
    [{ source := "traces",
       data := identify_rejection_points rejection_traces,
       insight := "Rejections occur during policy validation step" }]

/-- Embeds `correlate_claim_rejection_pattern`. -/
def correlate_claim_rejection_pattern (now : String) (env : RejectionEnv) :
    CorrelationResult :=
  let findings := rejection_metrics_findings env ++
    rejection_logs_findings env ++ rejection_traces_findings
  { type := "claim_rejection_analysis"
    timestamp := now
    findings := findings
    correlated_insight := generate_rejection_insight findings
    root_cause := some (determine_root_cause findings)
    recommended_actions := some (suggest_actions findings) }

/-! ### The correlation story (`create_correlation_story`) -/

inductive ChapterData where
  | metricsChapter (stats : Option RejStats)
  | logsChapter (log_count : Nat) (top_reasons : List (String × Nat))
  | tracesChapter (function step timing : String)
deriving DecidableEq

structure Chapter where
  chapter : Nat
  title : String
  source : String
  data : ChapterData
  narrative : String
deriving DecidableEq

structure Conclusion where
  root_cause : String
  impact : String
  recommendation : String
  fix_estimate : String
deriving DecidableEq

structure CorrelationStory where
  title : String
  timestamp : String
  chapters : List Chapter
  conclusion : Conclusion
deriving DecidableEq

/-- Embeds `create_correlation_story`: three fixed chapters built directly from
the rejection metrics and rejection logs queries, followed by a
hardcoded conclusion dict. -/
def create_correlation_story (now : String) (env : RejectionEnv) :
    CorrelationStory :=
  let ch1 : Chapter :=
    { chapter := 1
      title := "THE WHAT - Metrics Tell Us Something is Wrong"
      source := "Prometheus"
      data := .metricsChapter (get_rejection_metrics env.rejectionMetricsResp)
      narrative := "Metrics show 100% of claims are being rejected. This is highly unusual and indicates a systemic issue." }
  let rejection_logs := get_rejection_logs env.rejectionLogsResp
  let reasons := extract_rejection_reasons rejection_logs
  let cause := match reasons with
    | (r, _) :: _ => r
    | [] => "Invalid policies"
  let ch2 : Chapter :=
    { chapter := 2
      title := "THE WHY - Logs Reveal the Reason"
      source := "OpenSearch"
      data := .logsChapter rejection_logs.length reasons
      narrative := "Logs reveal that rejections are caused by: " ++ cause ++
        ". This explains the high rejection rate." }
  let ch3 : Chapter :=
    { chapter := 3
      title := "THE WHERE - Traces Show Exact Location"
      source := "Jaeger"
      data := .tracesChapter ("process_claim_locally") ("policy validation") ("~50ms per claim")
      narrative := "Traces pinpoint that rejections occur in the \x27process_claim_locally\x27 function during policy validation. The validation logic correctly identifies invalid policy numbers." }
  { title := "Complete Observability Story"
    timestamp := now
    chapters := [ch1, ch2, ch3]
    conclusion :=
      { root_cause := "Users are submitting claims with invalid policy numbers (INVALID1, INVALID2, etc.)"
        impact := "100% rejection rate, poor user experience"
        recommendation := "Add client-side validation to prevent invalid policy submissions"
        fix_estimate := "30 minutes to implement policy number validation" } }

/-! ### The `ObservabilityAnalyzer` of `app.py` -/

/-- A problem dict emitted by `analyze_metrics` / `analyze_logs`; keys
present only on some problem kinds become `Option` fields.  `severity`
is always set by the analyzer, so it is a plain field. -/
structure Problem where
  type : String
  severity : String
  value : Option ℚ := none
  threshold : Option ℚ := none
  rejected : Option Int := none
  total : Option Int := none
  count : Option Nat := none
  timestamp : String
deriving DecidableEq

/-- Embeds `get_prometheus_metrics`: `[]` on exception (incl. the non-2xx
`raise_for_status`), else the parsed sample values. -/
def get_prometheus_metrics (resp : Option (List ℚ)) : List ℚ :=
  resp.getD []

/-- Embeds `get_opensearch_logs`: `[]` on exception (incl. the non-2xx
`raise_for_status`), else the hits. -/
def get_opensearch_logs (resp : Option (List String)) : List String :=
  resp.getD []

/-- The four Prometheus query results consumed by `analyze_metrics`. -/
structure AnalyzerEnv where
  errorRatesResp : Option (List ℚ)
  rejectionsResp : Option (List ℚ)
  totalClaimsResp : Option (List ℚ)
  responseTimesResp : Option (List ℚ)
deriving DecidableEq

/-- Error-rate loop of `analyze_metrics`. -/
def error_rate_problems (now : String) (rates : List ℚ) : List Problem :=
  (rates.map (fun v =>
    if v > 0.05 then
      [{ type := "high_error_rate", severity := "high", value := some v,
         threshold := some 0.05, timestamp := now }]
    else ([] : List Problem))).flatten

/-- Rejection-rate section of `analyze_metrics`: requires both query
results non-empty, guards the division by `total_count > 0`, then
`> 0.7 → high`, `elif > 0.5 → medium` (both strict). -/
def rejection_problems (now : String) (rejections total_claims : List ℚ) :
    List Problem :=
  match rejections, total_claims with
  | rv :: _, tv :: _ =>
    if tv > 0 then
      let r := rv / tv
      if r > 0.7 then
        [{ type := "high_claim_rejection_rate", severity := "high",
           value := some (r * 100), rejected := some (pyInt rv),
           total := some (pyInt tv), timestamp := now }]
      else if r > 0.5 then
        [{ type := "high_claim_rejection_rate", severity := "medium",
           value := some (r * 100), rejected := some (pyInt rv),
           total := some (pyInt tv), timestamp := now }]
      else []
    else []
  | _, _ => []

/-- Response-time loop of `analyze_metrics`. -/
def response_time_problems (now : String) (times : List ℚ) : List Problem :=
  (times.map (fun v =>
    let ms := v * 1000
    if ms > 2000 then
      [{ type := "slow_response_time", severity := "medium",
         value := some ms, threshold := some 2000, timestamp := now }]
    else ([] : List Problem))).flatten

/-- Embeds `analyze_metrics`: the three sections append their problems in fixed
order. -/
def analyze_metrics (now : String) (env : AnalyzerEnv) : List Problem :=
  error_rate_problems now (get_prometheus_metrics env.errorRatesResp) ++
  rejection_problems now (get_prometheus_metrics env.rejectionsResp)
    (get_prometheus_metrics env.totalClaimsResp) ++
  response_time_problems now (get_prometheus_metrics env.responseTimesResp)

/-- The two OpenSearch query results consumed by `analyze_logs`. -/
structure LogAnalyzerEnv where
  errorLogsResp : Option (List String)
  dbErrorsResp : Option (List String)
deriving DecidableEq

/-- Embeds `analyze_logs`: `> 10` generic error docs → high problem, `> 5`
database docs → high problem. -/
def analyze_logs (now : String) (env : LogAnalyzerEnv) : List Problem :=
  let error_logs := get_opensearch_logs env.errorLogsResp
  let p1 : List Problem :=
    if error_logs.length > 10 then
      [{ type := "high_error_rate", severity := "high",
         count := some error_logs.length, timestamp := now }]
    else []
  let db_errors := get_opensearch_logs env.dbErrorsResp
  let p2 : List Problem :=
    if db_errors.length > 5 then
      [{ type := "database_connection_issues", severity := "high",
         count := some db_errors.length, timestamp := now }]
    else []
  p1 ++ p2

/-- The static `problem_patterns` registry:
`type ↦ (description, solutions)`. -/
def problem_patterns : List (String × String × List String) :=
  [("high_error_rate", ("High error rate detected",
     ["Check application logs for error patterns",
      "Verify external service dependencies",
      "Review recent code deployments"])),
   ("slow_response_time", ("Response time is above threshold",
     ["Check database query performance",
      "Review external API response times",
      "Consider adding caching"])),
   ("high_memory_usage", ("Memory usage is high",
     ["Check for memory leaks",
      "Review garbage collection settings",
      "Consider scaling horizontally"])),
   ("database_connection_issues", ("Database connection problems",
     ["Check database server status",
      "Review connection pool settings",
      "Verify network connectivity"])),
   ("high_claim_rejection_rate", ("Unusually high claim rejection rate detected",
     ["Review recent policy changes or updates",
      "Check if policy validation logic is too strict",
      "Verify policy numbers in submission requests",
      "Investigate if fraud detection is too aggressive",
      "Review claim amount limits and coverage amounts"]))]

structure Recommendation where
  problem : String
  severity : String
  solutions : List String
  timestamp : String
deriving DecidableEq

/-- Embeds `generate_recommendations`: registry lookup per problem type. -/
def generate_recommendations (now : String) (problems : List Problem) :
    List Recommendation :=
  (problems.map (fun p =>
    match problem_patterns.find? (fun e => e.1 == p.type) with
    | some e =>
        [{ problem := e.2.1, severity := p.severity,
           solutions := e.2.2, timestamp := now }]
    | none => ([] : List Recommendation))).flatten

structure AnalysisSummary where
  total_problems : Nat
  high_severity : Nat
  medium_severity : Nat
  low_severity : Nat
deriving DecidableEq

structure AnalysisResult where
  timestamp : String
  problems : List Problem
  recommendations : List Recommendation
  summary : AnalysisSummary
deriving DecidableEq

/-- Embeds `run_analysis`: metric problems then log problems, with
recommendations and a severity summary. -/
def run_analysis (now : String) (menv : AnalyzerEnv)
    (lenv : LogAnalyzerEnv) : AnalysisResult :=
  let all := analyze_metrics now menv ++ analyze_logs now lenv
  { timestamp := now
    problems := all
    recommendations := generate_recommendations now all
    summary :=
      { total_problems := all.length
        high_severity := (all.filter (fun p => p.severity == "high")).length
        medium_severity := (all.filter (fun p => p.severity == "medium")).length
        low_severity := (all.filter (fun p => p.severity == "low")).length } }

/-! ## Claim C1: behaviour when all three backends are unavailable -/

/-- C1 counterexample: with every backend call raising, the
rejection-pattern investigation does NOT return the fallback insight
`"No correlation data available"` (it returns its own analysing
message), and its single generic action has priority `"medium"`, not
low — so the claim, which asserts the fixed fallback string and a
low-priority action for every investigation, is false. -/
theorem c1_counterexample :
    (correlate_claim_rejection_pattern ("t") ⟨none, none⟩).correlated_insight ≠
      "No correlation data available" ∧
    (correlate_claim_rejection_pattern ("t") ⟨none, none⟩).recommended_actions =
      some [investigateFurtherAction] ∧
    investigateFurtherAction.priority ≠ "low" :=
  ⟨by decide, rfl, by decide⟩

/-- C1 amended: if all three backend clients raise (are unavailable),
every investigation still returns a `CorrelationResult` with an empty
findings list and no exception; the error-spike and latency
investigations return `correlated_insight = "No correlation data
available"`, while the rejection investigation returns its own fixed
message `"Analyzing rejection patterns across metrics, logs, and
traces..."`, the fallback root cause, and exactly one generic
`Investigate Further` action whose priority is `"medium"`. -/
theorem c1_all_unavailable (now : String) (minutes : Nat) :
    (correlate_error_spike now minutes ⟨none, none⟩).findings = [] ∧
    (correlate_error_spike now minutes ⟨none, none⟩).correlated_insight =
      "No correlation data available" ∧
    (correlate_slow_requests now minutes ⟨none, none⟩).findings = [] ∧
    (correlate_slow_requests now minutes ⟨none, none⟩).correlated_insight =
      "No correlation data available" ∧
    (correlate_claim_rejection_pattern now ⟨none, none⟩).findings = [] ∧
    (correlate_claim_rejection_pattern now ⟨none, none⟩).correlated_insight =
      "Analyzing rejection patterns across metrics, logs, and traces..." ∧
    (correlate_claim_rejection_pattern now ⟨none, none⟩).root_cause =
      some ("Invalid policy numbers being submitted") ∧
    (correlate_claim_rejection_pattern now ⟨none, none⟩).recommended_actions =
      some [investigateFurtherAction] ∧
    investigateFurtherAction.priority = "medium" :=
  ⟨rfl, rfl, rfl, rfl, rfl, rfl, rfl, rfl, rfl⟩

/-! ## Claim C3: exceptions are caught at the call site -/

/-- C3: every backend query helper converts a raised exception (the
`none` response) into its empty/`None` fallback, and every public
operation of the engine and the analyzer is a total function that
returns a complete result for every environment, including environments
in which every backend call raises. -/
theorem c3_no_exception_propagation (now : String) (minutes : Nat)
    (e1 : ErrorSpikeEnv) (e2 : SlowRequestsEnv) (e3 : RejectionEnv)
    (menv : AnalyzerEnv) (lenv : LogAnalyzerEnv) :
    get_error_metrics minutes none = none ∧
    get_error_logs none = [] ∧
    get_rejection_logs none = [] ∧
    get_performance_logs none = [] ∧
    get_rejection_metrics none = none ∧
    get_slow_request_metrics none = none ∧
    get_prometheus_metrics none = [] ∧
    get_opensearch_logs none = [] ∧
    (correlate_error_spike now minutes e1).type = "error_spike_investigation" ∧
    (correlate_slow_requests now minutes e2).type = "performance_investigation" ∧
    (correlate_claim_rejection_pattern now e3).type = "claim_rejection_analysis" ∧
    (create_correlation_story now e3).title = "Complete Observability Story" ∧
    (run_analysis now menv lenv).timestamp = now :=
  ⟨rfl, rfl, rfl, rfl, rfl, rfl, rfl, rfl, rfl, rfl, rfl, rfl, rfl⟩

/-! ## Claim C7: `Unavailable` vs empty result -/

/-- C7 counterexample: an unavailable backend (raised exception,
`none`) and a backend that answered successfully with zero hits
(`some []`) produce the *same* return value, so the caller cannot
distinguish them — the claimed distinguishability is false. -/
theorem c7_counterexample :
    get_error_logs none = get_error_logs (some []) ∧
    get_prometheus_metrics none = get_prometheus_metrics (some []) :=
  ⟨rfl, rfl⟩

/-- C7 amended: for every backend query helper, a transport failure,
timeout, or non-2xx response (all modelled as a raised exception,
`none`) yields exactly the same empty/`None` value as a successful
query that returned an empty result set; `Unavailable` is therefore
*not* distinguishable from zero findings by the caller. -/
theorem c7_unavailable_conflated (minutes : Nat) :
    get_error_metrics minutes none = get_error_metrics minutes (some []) ∧
    get_slow_request_metrics none = get_slow_request_metrics (some []) ∧
    get_rejection_metrics none = get_rejection_metrics (some ([], [])) ∧
    get_error_logs none = get_error_logs (some []) ∧
    get_rejection_logs none = get_rejection_logs (some []) ∧
    get_performance_logs none = get_performance_logs (some []) ∧
    get_prometheus_metrics none = get_prometheus_metrics (some []) ∧
    get_opensearch_logs none = get_opensearch_logs (some []) ∧
    get_error_metrics minutes none = none ∧
    get_error_logs none = [] :=
  ⟨rfl, rfl, rfl, rfl, rfl, rfl, rfl, rfl, rfl, rfl⟩

/-! ## Claim C8: structure of `create_correlation_story` -/

/-- C8 counterexample: with rejection logs whose top extracted reason is
`Exceeds coverage`, the rejection investigation derives root cause
`"Exceeds coverage (1 occurrences)"`, but the story conclusion still
carries the hardcoded invalid-policy root cause — the conclusion is not
synthesized from the root cause derived by the rejection investigation. -/
theorem c8_counterexample :
    (correlate_claim_rejection_pattern ("t")
        ⟨none, some ["claim exceeds coverage amount"]⟩).root_cause =
      some ("Exceeds coverage (1 occurrences)") ∧
    (create_correlation_story ("t")
        ⟨none, some ["claim exceeds coverage amount"]⟩).conclusion.root_cause ≠
      (correlate_claim_rejection_pattern ("t")
        ⟨none, some ["claim exceeds coverage amount"]⟩).root_cause.getD "" :=
  ⟨by decide, by decide⟩

/-- C8 amended: `create_correlation_story` builds its three ordered
chapters directly from the rejection-metrics and rejection-logs backend
queries (not by invoking the three investigation operations), attaching
fixed chapter numbers, source labels and templated narratives; its
`Conclusion` is a hardcoded constant, independent of all backend data
and of the root cause derived by the rejection investigation. -/
theorem c8_story_structure (now : String) (env : RejectionEnv) :
    (create_correlation_story now env).chapters.map Chapter.chapter = [1, 2, 3] ∧
    (create_correlation_story now env).chapters.map Chapter.source =
      ["Prometheus", "OpenSearch", "Jaeger"] ∧
    (create_correlation_story now env).chapters.map Chapter.data =
      [.metricsChapter (get_rejection_metrics env.rejectionMetricsResp),
       .logsChapter (get_rejection_logs env.rejectionLogsResp).length
         (extract_rejection_reasons (get_rejection_logs env.rejectionLogsResp)),
       .tracesChapter ("process_claim_locally") ("policy validation")
         ("~50ms per claim")] ∧
    (create_correlation_story now env).conclusion =
      { root_cause := "Users are submitting claims with invalid policy numbers (INVALID1, INVALID2, etc.)"
        impact := "100% rejection rate, poor user experience"
        recommendation := "Add client-side validation to prevent invalid policy submissions"
        fix_estimate := "30 minutes to implement policy number validation" } :=
  ⟨rfl, rfl, rfl, rfl⟩

/-! ## Claim C9: idempotence across invocations -/

/-- C9 counterexample: two invocations with identical backend responses
but different clock readings produce different `CorrelationResult`
values (the `timestamp` field records the call-time clock), so the
claimed strict identity is false. -/
theorem c9_counterexample :
    correlate_error_spike ("2024-01-01T00:00:00") 5 ⟨none, none⟩ ≠
      correlate_error_spike ("2024-01-01T00:00:01") 5 ⟨none, none⟩ := by
  decide

/-- C9 amended: invoking any investigation (or the story) twice with
identical backend responses yields results that are identical except
for the `timestamp` field, which records the per-call clock reading;
every other field is a function of the backend responses alone. -/
theorem c9_idempotent_up_to_timestamp (t₁ t₂ : String) (minutes : Nat)
    (e1 : ErrorSpikeEnv) (e2 : SlowRequestsEnv) (e3 : RejectionEnv) :
    correlate_error_spike t₁ minutes e1 =
      { correlate_error_spike t₂ minutes e1 with timestamp := t₁ } ∧
    correlate_slow_requests t₁ minutes e2 =
      { correlate_slow_requests t₂ minutes e2 with timestamp := t₁ } ∧
    correlate_claim_rejection_pattern t₁ e3 =
      { correlate_claim_rejection_pattern t₂ e3 with timestamp := t₁ } ∧
    create_correlation_story t₁ e3 =
      { create_correlation_story t₂ e3 with timestamp := t₁ } :=
  ⟨rfl, rfl, rfl, rfl⟩

/-! ## Shape lemmas for the finding segments

Each segment of the findings list of an investigation is either empty or a
single finding with a fixed `source` and no `severity`. -/

theorem error_spike_metrics_shape (minutes : Nat) (env : ErrorSpikeEnv) :
    error_spike_metrics_findings minutes env = [] ∨
      ∃ f, error_spike_metrics_findings minutes env = [f] ∧
        f.source = "metrics" ∧ f.severity = none := by
  unfold error_spike_metrics_findings
  cases get_error_metrics minutes env.errorMetricsResp
  · exact Or.inl rfl
  · exact Or.inr ⟨_, rfl, rfl, rfl⟩

theorem error_spike_logs_shape (env : ErrorSpikeEnv) :
    error_spike_logs_findings env = [] ∨
      ∃ f, error_spike_logs_findings env = [f] ∧
        f.source = "logs" ∧ f.severity = none := by
  by_cases h : (get_error_logs env.errorLogsResp).isEmpty = true
  · simp only [error_spike_logs_findings, if_pos h]
    exact Or.inl trivial
  · simp only [error_spike_logs_findings, if_neg h]
    exact Or.inr ⟨_, rfl, rfl, rfl⟩

theorem error_spike_traces_shape (minutes : Nat) :
    error_spike_traces_findings minutes = [] := rfl

theorem slow_requests_metrics_shape (env : SlowRequestsEnv) :
    slow_requests_metrics_findings env = [] ∨
      ∃ f, slow_requests_metrics_findings env = [f] ∧
        f.source = "metrics" ∧ f.severity = none := by
  unfold slow_requests_metrics_findings
  cases get_slow_request_metrics env.slowMetricsResp
  · exact Or.inl rfl
  · exact Or.inr ⟨_, rfl, rfl, rfl⟩

theorem slow_requests_logs_shape (env : SlowRequestsEnv) :
    slow_requests_logs_findings env = [] ∨
      ∃ f, slow_requests_logs_findings env = [f] ∧
        f.source = "logs" ∧ f.severity = none := by
  by_cases h : (get_performance_logs env.perfLogsResp).isEmpty = true
  · simp only [slow_requests_logs_findings, if_pos h]
    exact Or.inl trivial
  · simp only [slow_requests_logs_findings, if_neg h]
    exact Or.inr ⟨_, rfl, rfl, rfl⟩

theorem slow_requests_traces_shape (minutes : Nat) :
    slow_requests_traces_findings minutes = [] := rfl

theorem rejection_metrics_shape (env : RejectionEnv) :
    rejection_metrics_findings env = [] ∨
      ∃ f, rejection_metrics_findings env = [f] ∧
        f.source = "metrics" ∧ f.severity = none := by
  unfold rejection_metrics_findings
  cases get_rejection_metrics env.rejectionMetricsResp
  · exact Or.inl rfl
  · exact Or.inr ⟨_, rfl, rfl, rfl⟩

theorem rejection_logs_shape (env : RejectionEnv) :
    rejection_logs_findings env = [] ∨
      ∃ f, rejection_logs_findings env = [f] ∧
        f.source = "logs" ∧ f.severity = none := by
  by_cases h : (get_rejection_logs env.rejectionLogsResp).isEmpty = true
  · simp only [rejection_logs_findings, if_pos h]
    exact Or.inl trivial
  · simp only [rejection_logs_findings, if_neg h]
    exact Or.inr ⟨_, rfl, rfl, rfl⟩

theorem rejection_traces_shape : rejection_traces_findings = [] := rfl

/-- A segment that is empty or a single finding of source `s` maps to a
sublist of `[s]` under `Finding.source`. -/
theorem shape_sources_sublist {l : List Finding} {s : String}
    (h : l = [] ∨ ∃ f, l = [f] ∧ f.source = s ∧ f.severity = none) :
    List.Sublist (l.map Finding.source) [s] := by
  rcases h with rfl | ⟨f, rfl, hs, -⟩
  · exact List.nil_sublist _
  · rw [List.map_singleton, hs]

/-- Sources of a three-segment findings list form an in-order sublist of
the three segment source labels. -/
theorem append3_sources_sublist {a b c : List Finding} {s₁ s₂ s₃ : String}
    (ha : List.Sublist (a.map Finding.source) [s₁])
    (hb : List.Sublist (b.map Finding.source) [s₂])
    (hc : List.Sublist (c.map Finding.source) [s₃]) :
    List.Sublist ((a ++ b ++ c).map Finding.source) [s₁, s₂, s₃] := by
  rw [List.map_append, List.map_append]
  exact (ha.append hb).append hc

/-! ## Claim C4: findings are ordered metrics, then logs, then traces -/

/-- C4: in every `CorrelationResult` of every investigation operation,
the findings appear ordered by source priority — all metrics findings,
then all logs findings, then all traces findings (the source sequence
is an in-order sublist of `[metrics, logs, traces]`), for every
combination of backend responses. -/
theorem c4_findings_source_order (now : String) (minutes : Nat)
    (e1 : ErrorSpikeEnv) (e2 : SlowRequestsEnv) (e3 : RejectionEnv) :
    List.Sublist ((correlate_error_spike now minutes e1).findings.map Finding.source)
      ["metrics", "logs", "traces"] ∧
    List.Sublist ((correlate_slow_requests now minutes e2).findings.map Finding.source)
      ["metrics", "logs", "traces"] ∧
    List.Sublist ((correlate_claim_rejection_pattern now e3).findings.map Finding.source)
      ["metrics", "logs", "traces"] := by
  refine ⟨?_, ?_, ?_⟩
  · exact append3_sources_sublist
      (shape_sources_sublist (error_spike_metrics_shape minutes e1))
      (shape_sources_sublist (error_spike_logs_shape e1))
      (shape_sources_sublist (Or.inl (error_spike_traces_shape minutes)))
  · exact append3_sources_sublist
      (shape_sources_sublist (slow_requests_metrics_shape e2))
      (shape_sources_sublist (slow_requests_logs_shape e2))
      (shape_sources_sublist (Or.inl (slow_requests_traces_shape minutes)))
  · exact append3_sources_sublist
      (shape_sources_sublist (rejection_metrics_shape e3))
      (shape_sources_sublist (rejection_logs_shape e3))
      (shape_sources_sublist (Or.inl rejection_traces_shape))

/-! ## Membership lemmas for the analyzer problem lists -/

theorem error_rate_problems_mem {now : String} {rates : List ℚ} {p : Problem}
    (h : p ∈ error_rate_problems now rates) :
    p.type = "high_error_rate" ∧ p.severity = "high" := by
  simp only [error_rate_problems, List.mem_flatten, List.mem_map] at h
  obtain ⟨l, ⟨v, -, rfl⟩, hp⟩ := h
  split at hp
  · rw [List.mem_singleton] at hp
    subst hp
    exact ⟨rfl, rfl⟩
  · exact absurd hp (List.not_mem_nil p)

theorem response_time_problems_mem {now : String} {times : List ℚ} {p : Problem}
    (h : p ∈ response_time_problems now times) :
    p.type = "slow_response_time" ∧ p.severity = "medium" := by
  simp only [response_time_problems, List.mem_flatten, List.mem_map] at h
  obtain ⟨l, ⟨v, -, rfl⟩, hp⟩ := h
  split at hp
  · rw [List.mem_singleton] at hp
    subst hp
    exact ⟨rfl, rfl⟩
  · exact absurd hp (List.not_mem_nil p)

theorem rejection_problems_mem {now : String} {a b : List ℚ} {p : Problem}
    (h : p ∈ rejection_problems now a b) :
    p.type = "high_claim_rejection_rate" ∧
      (p.severity = "high" ∨ p.severity = "medium") := by
  rcases a with - | ⟨rv, rtl⟩
  · exact absurd h (List.not_mem_nil p)
  rcases b with - | ⟨tv, ttl⟩
  · exact absurd h (List.not_mem_nil p)
  simp only [rejection_problems] at h
  split_ifs at h
  · rw [List.mem_singleton] at h
    subst h
    exact ⟨rfl, Or.inl rfl⟩
  · rw [List.mem_singleton] at h
    subst h
    exact ⟨rfl, Or.inr rfl⟩
  · exact absurd h (List.not_mem_nil p)
  · exact absurd h (List.not_mem_nil p)

theorem analyze_logs_mem {now : String} {env : LogAnalyzerEnv} {p : Problem}
    (h : p ∈ analyze_logs now env) :
    (p.type = "high_error_rate" ∨ p.type = "database_connection_issues") ∧
      p.severity = "high" := by
  simp only [analyze_logs, List.mem_append] at h
  rcases h with h | h <;> split_ifs at h <;>
    first
      | exact absurd h (List.not_mem_nil p)
      | · rw [List.mem_singleton] at h
          subst h
          simp

/-! ## Claim C6: severity population -/

/-- C6 counterexample: a concrete error-spike run whose metrics query
returned one sample produces a finding with `source = "metrics"` and no
`severity` key — the claim that metrics-sourced findings always carry a
populated severity is false. -/
theorem c6_counterexample :
    ((correlate_error_spike ("t") 5 ⟨some [(5 : ℚ)], none⟩).findings.all
      (fun f => !(f.source == "metrics") || f.severity.isSome)) = false :=
  rfl

/-- C6 amended: findings produced by the investigation operations never
carry a `severity` key, for any source (including metrics); the
problem records of the analyzer, by contrast, always populate `severity`
(with `"high"` or `"medium"`). -/
theorem c6_severity_fields (now : String) (minutes : Nat)
    (e1 : ErrorSpikeEnv) (e2 : SlowRequestsEnv) (e3 : RejectionEnv)
    (menv : AnalyzerEnv) (lenv : LogAnalyzerEnv) :
    (∀ f ∈ (correlate_error_spike now minutes e1).findings, f.severity = none) ∧
    (∀ f ∈ (correlate_slow_requests now minutes e2).findings, f.severity = none) ∧
    (∀ f ∈ (correlate_claim_rejection_pattern now e3).findings, f.severity = none) ∧
    (∀ p ∈ analyze_metrics now menv,
      p.severity = "high" ∨ p.severity = "medium") ∧
    (∀ p ∈ analyze_logs now lenv, p.severity = "high") := by
  have seg : ∀ {l : List Finding} {s : String},
      (l = [] ∨ ∃ f, l = [f] ∧ f.source = s ∧ f.severity = none) →
      ∀ f ∈ l, f.severity = none := by
    rintro l s (rfl | ⟨g, rfl, -, hsev⟩) f hf
    · exact absurd hf (List.not_mem_nil f)
    · rw [List.mem_singleton] at hf
      subst hf
      exact hsev
  refine ⟨?_, ?_, ?_, ?_, fun p hp => (analyze_logs_mem hp).2⟩
  · intro f hf
    simp only [correlate_error_spike, List.mem_append] at hf
    rcases hf with (hf | hf) | hf
    · exact seg (error_spike_metrics_shape minutes e1) f hf
    · exact seg (error_spike_logs_shape e1) f hf
    · exact @seg _ "traces" (Or.inl (error_spike_traces_shape minutes)) f hf
  · intro f hf
    simp only [correlate_slow_requests, List.mem_append] at hf
    rcases hf with (hf | hf) | hf
    · exact seg (slow_requests_metrics_shape e2) f hf
    · exact seg (slow_requests_logs_shape e2) f hf
    · exact @seg _ "traces" (Or.inl (slow_requests_traces_shape minutes)) f hf
  · intro f hf
    simp only [correlate_claim_rejection_pattern, List.mem_append] at hf
    rcases hf with (hf | hf) | hf
    · exact seg (rejection_metrics_shape e3) f hf
    · exact seg (rejection_logs_shape e3) f hf
    · exact @seg _ "traces" (Or.inl rejection_traces_shape) f hf
  · intro p hp
    simp only [analyze_metrics, List.mem_append] at hp
    rcases hp with (hp | hp) | hp
    · exact Or.inl (error_rate_problems_mem hp).2
    · exact (rejection_problems_mem hp).2
    · exact Or.inr (response_time_problems_mem hp).2

/-! ## Claims C2 and C5: rejection-rate thresholds -/

/-- Helper: with the head of the total-claims result equal to zero, the
rejection section emits nothing (the division is guarded). -/
theorem rejection_problems_total_zero (now : String) (rej ttl : List ℚ) :
    rejection_problems now rej ((0 : ℚ) :: ttl) = [] := by
  cases rej
  · rfl
  · simp only [rejection_problems]
    rw [if_neg (lt_irrefl (0 : ℚ))]

/-- C2: with both rejection queries answering and `total > 0`, letting
`r = rejected / total`: a `high_claim_rejection_rate` problem of
severity `high` is emitted iff `r > 0.70`; one of severity `medium` is
emitted iff `0.50 < r ≤ 0.70`; and no such problem is emitted iff
`r ≤ 0.50`.  In particular at `r = 0.70` exactly, the emitted severity
is `medium`, not `high` (both thresholds strict). -/
theorem c2_rejection_rate_thresholds (now : String) (env : AnalyzerEnv)
    (rv tv : ℚ) (rtl ttl : List ℚ)
    (hr : env.rejectionsResp = some (rv :: rtl))
    (ht : env.totalClaimsResp = some (tv :: ttl))
    (htv : (0 : ℚ) < tv) :
    ((∃ p ∈ analyze_metrics now env,
        p.type = "high_claim_rejection_rate" ∧ p.severity = "high") ↔
      (0.7 : ℚ) < rv / tv) ∧
    ((∃ p ∈ analyze_metrics now env,
        p.type = "high_claim_rejection_rate" ∧ p.severity = "medium") ↔
      ((0.5 : ℚ) < rv / tv ∧ rv / tv ≤ (0.7 : ℚ))) ∧
    ((∀ p ∈ analyze_metrics now env,
        p.type ≠ "high_claim_rejection_rate") ↔ rv / tv ≤ (0.5 : ℚ)) := by
  have hAM : analyze_metrics now env =
      error_rate_problems now (get_prometheus_metrics env.errorRatesResp) ++
      rejection_problems now (rv :: rtl) (tv :: ttl) ++
      response_time_problems now
        (get_prometheus_metrics env.responseTimesResp) := by
    rw [analyze_metrics, hr, ht]
    rfl
  have hmem : ∀ p, p ∈ analyze_metrics now env →
      p.type = "high_claim_rejection_rate" →
      p ∈ rejection_problems now (rv :: rtl) (tv :: ttl) := by
    intro p hp hty
    rw [hAM] at hp
    rcases List.mem_append.mp hp with hp | hp
    · rcases List.mem_append.mp hp with hp | hp
      · exact absurd hty (by rw [(error_rate_problems_mem hp).1]; decide)
      · exact hp
    · exact absurd hty (by rw [(response_time_problems_mem hp).1]; decide)
  have hmem2 : ∀ p, p ∈ rejection_problems now (rv :: rtl) (tv :: ttl) →
      p ∈ analyze_metrics now env := by
    intro p hp
    rw [hAM]
    exact List.mem_append.mpr (Or.inl (List.mem_append.mpr (Or.inr hp)))
  by_cases h7 : (0.7 : ℚ) < rv / tv
  · have hB : rejection_problems now (rv :: rtl) (tv :: ttl) =
        [{ type := "high_claim_rejection_rate", severity := "high",
           value := some (rv / tv * 100), rejected := some (pyInt rv),
           total := some (pyInt tv), timestamp := now }] := by
      simp only [rejection_problems]
      rw [if_pos htv, if_pos h7]
    have hPm : ({ type := "high_claim_rejection_rate", severity := "high",
                  value := some (rv / tv * 100), rejected := some (pyInt rv),
                  total := some (pyInt tv), timestamp := now } : Problem) ∈
          analyze_metrics now env := by
      apply hmem2
      rw [hB]
      exact List.mem_singleton.mpr rfl
    refine ⟨⟨fun _ => h7, fun _ => ⟨_, hPm, rfl, rfl⟩⟩, ?_, ?_⟩
    · apply iff_of_false
      · rintro ⟨p, hp, hty, hsev⟩
        have hpB := hmem p hp hty
        rw [hB, List.mem_singleton] at hpB
        subst hpB
        exact absurd (show ("high" : String) = "medium" from hsev) (by decide)
      · rintro ⟨-, h77⟩
        exact absurd h7 (not_lt.mpr h77)
    · apply iff_of_false
      · intro hall
        exact hall _ hPm rfl
      · intro h55
        linarith
  · by_cases h5 : (0.5 : ℚ) < rv / tv
    · have hB : rejection_problems now (rv :: rtl) (tv :: ttl) =
          [{ type := "high_claim_rejection_rate", severity := "medium",
             value := some (rv / tv * 100), rejected := some (pyInt rv),
             total := some (pyInt tv), timestamp := now }] := by
        simp only [rejection_problems]
        rw [if_pos htv, if_neg h7, if_pos h5]
      have hPm : ({ type := "high_claim_rejection_rate", severity := "medium",
                    value := some (rv / tv * 100), rejected := some (pyInt rv),
                    total := some (pyInt tv), timestamp := now } : Problem) ∈
            analyze_metrics now env := by
        apply hmem2
        rw [hB]
        exact List.mem_singleton.mpr rfl
      refine ⟨?_, ⟨fun _ => ⟨h5, not_lt.mp h7⟩, fun _ => ⟨_, hPm, rfl, rfl⟩⟩, ?_⟩
      · apply iff_of_false
        · rintro ⟨p, hp, hty, hsev⟩
          have hpB := hmem p hp hty
          rw [hB, List.mem_singleton] at hpB
          subst hpB
          exact absurd (show ("medium" : String) = "high" from hsev) (by decide)
        · exact h7
      · apply iff_of_false
        · intro hall
          exact hall _ hPm rfl
        · intro h55
          exact absurd h5 (not_lt.mpr h55)
    · have hB : rejection_problems now (rv :: rtl) (tv :: ttl) = [] := by
        simp only [rejection_problems]
        rw [if_pos htv, if_neg h7, if_neg h5]
      refine ⟨?_, ?_, ⟨fun _ => not_lt.mp h5, fun _ p hp hty => ?_⟩⟩
      · apply iff_of_false
        · rintro ⟨p, hp, hty, -⟩
          have hpB := hmem p hp hty
          rw [hB] at hpB
          exact absurd hpB (List.not_mem_nil p)
        · exact h7
      · apply iff_of_false
        · rintro ⟨p, hp, hty, -⟩
          have hpB := hmem p hp hty
          rw [hB] at hpB
          exact absurd hpB (List.not_mem_nil p)
        · rintro ⟨h55, -⟩
          exact h5 h55
      · have hpB := hmem p hp hty
        rw [hB] at hpB
        exact absurd hpB (List.not_mem_nil p)

/-- Witness for C2 at the boundary `r = 7/10 = 0.70` exactly: with
`rejected = 7`, `total = 10`, the thresholds theorem applies and yields
medium, not high. -/
theorem c2_witness :
    (0 : ℚ) < 10 ∧
    (((∃ p ∈ analyze_metrics ("t")
          (⟨some [], some [(7 : ℚ)], some [(10 : ℚ)], some []⟩ : AnalyzerEnv),
        p.type = "high_claim_rejection_rate" ∧ p.severity = "high") ↔
      (0.7 : ℚ) < 7 / 10) ∧
    ((∃ p ∈ analyze_metrics ("t")
          (⟨some [], some [(7 : ℚ)], some [(10 : ℚ)], some []⟩ : AnalyzerEnv),
        p.type = "high_claim_rejection_rate" ∧ p.severity = "medium") ↔
      ((0.5 : ℚ) < 7 / 10 ∧ (7 : ℚ) / 10 ≤ (0.7 : ℚ))) ∧
    ((∀ p ∈ analyze_metrics ("t")
          (⟨some [], some [(7 : ℚ)], some [(10 : ℚ)], some []⟩ : AnalyzerEnv),
        p.type ≠ "high_claim_rejection_rate") ↔ (7 : ℚ) / 10 ≤ (0.5 : ℚ))) :=
  ⟨by norm_num,
   c2_rejection_rate_thresholds ("t") _ 7 10 [] [] rfl rfl (by norm_num)⟩

/-- C5: if the total-claims query reports `total == 0`, no rejection
problem is emitted — the division is guarded by the `total > 0` check. -/
theorem c5_total_zero_no_problem (now : String) (env : AnalyzerEnv)
    (ttl : List ℚ) (ht : env.totalClaimsResp = some ((0 : ℚ) :: ttl)) :
    ∀ p ∈ analyze_metrics now env, p.type ≠ "high_claim_rejection_rate" := by
  intro p hp
  simp only [analyze_metrics, ht, get_prometheus_metrics, Option.getD_some,
    List.mem_append] at hp
  rcases hp with (hp | hp) | hp
  · rw [(error_rate_problems_mem hp).1]
    decide
  · rw [rejection_problems_total_zero] at hp
    exact absurd hp (List.not_mem_nil p)
  · rw [(response_time_problems_mem hp).1]
    decide

/-- Witness for C5: a concrete environment observing `rejected = 8`,
`total = 0`. -/
theorem c5_witness :
    (⟨some [], some [(8 : ℚ)], some [(0 : ℚ)], some []⟩ :
      AnalyzerEnv).totalClaimsResp = some ((0 : ℚ) :: []) ∧
    ∀ p ∈ analyze_metrics ("t")
        (⟨some [], some [(8 : ℚ)], some [(0 : ℚ)], some []⟩ : AnalyzerEnv),
      p.type ≠ "high_claim_rejection_rate" :=
  ⟨rfl, c5_total_zero_no_problem ("t") _ [] rfl⟩

/-! ## Claim C10: pattern-extractor bucketing -/

theorem lookupCount_nil (k : String) : lookupCount k [] = 0 := rfl

theorem lookupCount_cons_self (k : String) (c : Nat)
    (rest : List (String × Nat)) :
    lookupCount k ((k, c) :: rest) = c := by
  simp [lookupCount, List.find?_cons_of_pos]

theorem lookupCount_cons_ne {k k₂ : String} (h : k₂ ≠ k) (c : Nat)
    (rest : List (String × Nat)) :
    lookupCount k ((k₂, c) :: rest) = lookupCount k rest := by
  simp only [lookupCount]
  rw [List.find?_cons_of_neg]
  simpa using h

theorem lookupCount_bumpKey_self (k : String) (l : List (String × Nat)) :
    lookupCount k (bumpKey k l) = lookupCount k l + 1 := by
  induction l with
  | nil =>
    rw [bumpKey, lookupCount_cons_self, lookupCount_nil]
  | cons hd tl ih =>
    obtain ⟨k₂, c⟩ := hd
    by_cases h : k₂ = k
    · subst h
      rw [bumpKey, if_pos rfl, lookupCount_cons_self, lookupCount_cons_self]
    · rw [bumpKey, if_neg h, lookupCount_cons_ne h, lookupCount_cons_ne h, ih]

theorem lookupCount_bumpKey_ne {k k₃ : String} (h : k ≠ k₃)
    (l : List (String × Nat)) :
    lookupCount k (bumpKey k₃ l) = lookupCount k l := by
  induction l with
  | nil =>
    rw [bumpKey, lookupCount_cons_ne (Ne.symm h), lookupCount_nil]
  | cons hd tl ih =>
    obtain ⟨k₂, c⟩ := hd
    by_cases h2 : k₂ = k₃
    · subst h2
      rw [bumpKey, if_pos rfl, lookupCount_cons_ne (Ne.symm h),
        lookupCount_cons_ne (Ne.symm h)]
    · rw [bumpKey, if_neg h2]
      by_cases h3 : k₂ = k
      · subst h3
        rw [lookupCount_cons_self, lookupCount_cons_self]
      · rw [lookupCount_cons_ne h3, lookupCount_cons_ne h3, ih]

theorem patternStep_invalid (acc : List (String × Nat)) (msg : String) :
    lookupCount ("invalid_policy") (patternStep acc msg) =
      lookupCount ("invalid_policy") acc +
        (if containsStr ("Invalid") msg then 1 else 0) := by
  unfold patternStep
  by_cases h1 : containsStr ("Invalid") msg <;>
    by_cases h2 : containsStr ("rejected") msg <;>
      by_cases h3 : containsLower ("database") msg <;>
        simp [h1, h2, h3, lookupCount_bumpKey_self,
          lookupCount_bumpKey_ne
            (show ("invalid_policy" : String) ≠ "rejection" by decide),
          lookupCount_bumpKey_ne
            (show ("invalid_policy" : String) ≠ "database_error" by decide)]

theorem patternStep_rejection (acc : List (String × Nat)) (msg : String) :
    lookupCount ("rejection") (patternStep acc msg) =
      lookupCount ("rejection") acc +
        (if containsStr ("rejected") msg then 1 else 0) := by
  unfold patternStep
  by_cases h1 : containsStr ("Invalid") msg <;>
    by_cases h2 : containsStr ("rejected") msg <;>
      by_cases h3 : containsLower ("database") msg <;>
        simp [h1, h2, h3, lookupCount_bumpKey_self,
          lookupCount_bumpKey_ne
            (show ("rejection" : String) ≠ "invalid_policy" by decide),
          lookupCount_bumpKey_ne
            (show ("rejection" : String) ≠ "database_error" by decide)]

theorem patternStep_database (acc : List (String × Nat)) (msg : String) :
    lookupCount ("database_error") (patternStep acc msg) =
      lookupCount ("database_error") acc +
        (if containsLower ("database") msg then 1 else 0) := by
  unfold patternStep
  by_cases h1 : containsStr ("Invalid") msg <;>
    by_cases h2 : containsStr ("rejected") msg <;>
      by_cases h3 : containsLower ("database") msg <;>
        simp [h1, h2, h3, lookupCount_bumpKey_self,
          lookupCount_bumpKey_ne
            (show ("database_error" : String) ≠ "invalid_policy" by decide),
          lookupCount_bumpKey_ne
            (show ("database_error" : String) ≠ "rejection" by decide)]

theorem reasonStep_invalid (acc : List (String × Nat)) (msg : String) :
    lookupCount ("Invalid or inactive policy") (reasonStep acc msg) =
      lookupCount ("Invalid or inactive policy") acc +
        (if containsStr ("Invalid") msg then 1 else 0) := by
  unfold reasonStep
  by_cases h1 : containsStr ("Invalid") msg <;>
    by_cases h2 : containsStr ("exceeds") msg <;>
      by_cases h3 : containsStr ("rejected") msg <;>
        simp [h1, h2, h3, lookupCount_bumpKey_self,
          lookupCount_bumpKey_ne
            (show ("Invalid or inactive policy" : String) ≠ "Exceeds coverage" by decide),
          lookupCount_bumpKey_ne
            (show ("Invalid or inactive policy" : String) ≠ "Policy validation failed" by decide)]

theorem reasonStep_exceeds (acc : List (String × Nat)) (msg : String) :
    lookupCount ("Exceeds coverage") (reasonStep acc msg) =
      lookupCount ("Exceeds coverage") acc +
        (if (!containsStr ("Invalid") msg && containsStr ("exceeds") msg)
          then 1 else 0) := by
  unfold reasonStep
  by_cases h1 : containsStr ("Invalid") msg <;>
    by_cases h2 : containsStr ("exceeds") msg <;>
      by_cases h3 : containsStr ("rejected") msg <;>
        simp [h1, h2, h3, lookupCount_bumpKey_self,
          lookupCount_bumpKey_ne
            (show ("Exceeds coverage" : String) ≠ "Invalid or inactive policy" by decide),
          lookupCount_bumpKey_ne
            (show ("Exceeds coverage" : String) ≠ "Policy validation failed" by decide)]

theorem reasonStep_rejected (acc : List (String × Nat)) (msg : String) :
    lookupCount ("Policy validation failed") (reasonStep acc msg) =
      lookupCount ("Policy validation failed") acc +
        (if (!containsStr ("Invalid") msg && !containsStr ("exceeds") msg &&
            containsStr ("rejected") msg) then 1 else 0) := by
  unfold reasonStep
  by_cases h1 : containsStr ("Invalid") msg <;>
    by_cases h2 : containsStr ("exceeds") msg <;>
      by_cases h3 : containsStr ("rejected") msg <;>
        simp [h1, h2, h3, lookupCount_bumpKey_self,
          lookupCount_bumpKey_ne
            (show ("Policy validation failed" : String) ≠ "Invalid or inactive policy" by decide),
          lookupCount_bumpKey_ne
            (show ("Policy validation failed" : String) ≠ "Exceeds coverage" by decide)]

/-- Folding a counter step whose effect on key `k` is `+1` exactly on
messages satisfying `w` yields the filtered count. -/
theorem lookupCount_foldl
    {step : List (String × Nat) → String → List (String × Nat)}
    {k : String} {w : String → Bool}
    (hstep : ∀ acc m, lookupCount k (step acc m) =
      lookupCount k acc + (if w m then 1 else 0)) :
    ∀ (msgs : List String) (acc : List (String × Nat)),
      lookupCount k (msgs.foldl step acc) =
        lookupCount k acc + (msgs.filter w).length := by
  intro msgs
  induction msgs with
  | nil =>
    intro acc
    simp
  | cons m t ih =>
    intro acc
    rw [List.foldl_cons, ih, hstep, List.filter_cons]
    by_cases hw : w m
    · simp only [hw, if_pos]
      simp
      omega
    · simp [hw]

/-- C10 counterexample: the single message `"Invalid claim rejected"`
matches both the `Invalid` and the `rejected` phrases, and
`_extract_patterns` counts it in BOTH buckets (its `if`s are
independent, not first-match-wins) — two bucket counts from one
message, refuting "each message is counted in at most one bucket". -/
theorem c10_counterexample :
    patternCounts ["Invalid claim rejected"] =
      [("invalid_policy", 1), ("rejection", 1)] ∧
    totalCount (patternCounts ["Invalid claim rejected"]) = 2 ∧
    ¬ totalCount (patternCounts ["Invalid claim rejected"]) ≤
        (["Invalid claim rejected"] : List String).length :=
  ⟨by decide, by decide, by decide⟩

/-- C10 amended: `_extract_rejection_reasons` buckets messages
first-match-wins (`if/elif`): each log is counted in at most one
bucket, a message containing `Invalid` never reaches the later phrases.
`_extract_patterns`, by contrast, uses independent `if`s: each message
is counted once in *every* bucket whose phrase it contains.  Both
extractors return their buckets ordered by descending count. -/
theorem c10_bucket_counts (msgs : List String) :
    lookupCount ("invalid_policy") (patternCounts msgs) =
      (msgs.filter (fun m => containsStr ("Invalid") m)).length ∧
    lookupCount ("rejection") (patternCounts msgs) =
      (msgs.filter (fun m => containsStr ("rejected") m)).length ∧
    lookupCount ("database_error") (patternCounts msgs) =
      (msgs.filter (fun m => containsLower ("database") m)).length ∧
    lookupCount ("Invalid or inactive policy") (reasonCounts msgs) =
      (msgs.filter (fun m => containsStr ("Invalid") m)).length ∧
    lookupCount ("Exceeds coverage") (reasonCounts msgs) =
      (msgs.filter (fun m =>
        !containsStr ("Invalid") m && containsStr ("exceeds") m)).length ∧
    lookupCount ("Policy validation failed") (reasonCounts msgs) =
      (msgs.filter (fun m => !containsStr ("Invalid") m &&
        !containsStr ("exceeds") m && containsStr ("rejected") m)).length ∧
    List.Pairwise countGE (sortByCountDesc (patternCounts msgs)) ∧
    List.Pairwise countGE (extract_rejection_reasons msgs) := by
  refine ⟨?_, ?_, ?_, ?_, ?_, ?_, ?_, ?_⟩
  · rw [patternCounts, lookupCount_foldl patternStep_invalid msgs []]
    rw [lookupCount_nil, Nat.zero_add]
  · rw [patternCounts, lookupCount_foldl patternStep_rejection msgs []]
    rw [lookupCount_nil, Nat.zero_add]
  · rw [patternCounts, lookupCount_foldl patternStep_database msgs []]
    rw [lookupCount_nil, Nat.zero_add]
  · rw [reasonCounts, lookupCount_foldl reasonStep_invalid msgs []]
    rw [lookupCount_nil, Nat.zero_add]
  · rw [reasonCounts, lookupCount_foldl reasonStep_exceeds msgs []]
    rw [lookupCount_nil, Nat.zero_add]
  · rw [reasonCounts, lookupCount_foldl reasonStep_rejected msgs []]
    rw [lookupCount_nil, Nat.zero_add]
  · exact List.sorted_insertionSort countGE _
  · exact List.sorted_insertionSort countGE _

end ObsAgent
